import Mathlib

/-!
Verification of the reactive-state library `reflex`: signal primitives
(`createSignal`) and the `Action` watcher component, as described by the
repository specification, together with the `addLog` helper from the
Storybook stories file (`src/components/Action.stories.tsx`).

The implementation modules (`core/createSignal`, `components/Action`,
`components/Signal`) are not present in the analyzed sources; only the
stories file that calls them is. Following the spec, those parts are
modelled here as an explicit-state shallow embedding: a signal is a stored
value plus a list of subscriber callback identifiers, and the `Action`
component is a render-step function from its cached snapshot to the new
cached snapshot together with an optional fired snapshot.
-/

namespace Reflex

/-- Modelled from the spec: the state of one signal created by
`createSignal` (module `core/createSignal`, missing from the sources).
"Signal: holds a single current value of an arbitrary type; ...
maintains a set of subscriber callbacks invoked on every mutation."
Subscriber callbacks are identified by `(componentId, callbackId)` pairs. -/
structure SignalState (α : Type) where
  value : α
  subscribers : List (Nat × Nat)
deriving Repr

/-- Modelled from the spec: `createSignal(initial)` creates a signal holding
the initial value, with no subscribers yet. -/
def createSignal (v : α) : SignalState α :=
  { value := v, subscribers := [] }

/-- Modelled from the spec: the argument accepted by a signal setter —
"accepts either a new value or a function from old to new value". -/
inductive SetterArg (α : Type) where
  | val : α → SetterArg α
  | upd : (α → α) → SetterArg α

/-- Modelled from the spec: the new stored value produced by a setter call —
either the given value directly, or the updater applied to the old value. -/
def applySetter (arg : SetterArg α) (old : α) : α :=
  match arg with
  | .val v => v
  | .upd f => f old

/-- Modelled from the spec: the getter — "no-argument, returns current
value". In the explicit-state embedding it reads the stored value. -/
def getSignal (s : SignalState α) : α :=
  s.value

/-- Modelled from the spec: the setter — updates the stored value and
notifies the subscribers. Returns the new signal state and the list of
subscriber callbacks invoked by this mutation; per the spec the whole
subscriber set is notified "on every mutation, regardless of equality". -/
def setSignal (s : SignalState α) (arg : SetterArg α) :
    SignalState α × List (Nat × Nat) :=
  ({ s with value := applySetter arg s.value }, s.subscribers)

/-- Modelled from the spec: the `watch` prop of `Action` — "either a single
value-producing accessor or an ordered collection of accessors". -/
inductive Watch (σ : Type) (α : Type) where
  | single : (σ → α) → Watch σ α
  | multi : List (σ → α) → Watch σ α

/-- Modelled from the spec: a snapshot — "a snapshot value or tuple of
values": a scalar when `watch` is a single accessor, an ordered tuple when
it is an array of accessors. -/
inductive Snapshot (α : Type) where
  | scalar : α → Snapshot α
  | tuple : List α → Snapshot α
deriving DecidableEq, Repr

/-- Modelled from the spec: evaluating the `watch` descriptor in the current
ambient state `s` — each accessor is applied to produce the snapshot, in
the order of the accessor array. -/
def evalWatch (w : Watch σ α) (s : σ) : Snapshot α :=
  match w with
  | .single f => .scalar (f s)
  | .multi fs => .tuple (fs.map (fun f => f s))

/-- Modelled from the spec: shallow per-element snapshot comparison — two
scalars compare by equality, two tuples compare element-wise (same length
and equal elements); snapshots of different shapes are unequal. -/
def snapEq [DecidableEq α] : Snapshot α → Snapshot α → Bool
  | .scalar a, .scalar b => decide (a = b)
  | .tuple xs, .tuple ys => decide (xs = ys)
  | _, _ => false

/-- Modelled from the spec: the per-instance state of an `Action` component:
the previous-value cache, `none` before the first render. -/
structure ActionState (α : Type) where
  prev : Option (Snapshot α)

/-- Modelled from the spec: the props of `Action` — a `watch` descriptor, and
the optional `immediate` flag which defaults to `false`. (`onTrigger` is
represented by the fired-snapshot output of `actionRender`.) -/
structure ActionProps (σ : Type) (α : Type) where
  watch : Watch σ α
  immediate : Bool := false

/-- Modelled from the spec: one render of the `Action` component (module
`components/Action`, missing from the sources). Evaluates `watch` into the
current snapshot; on first mount it caches the snapshot and fires the
callback with it exactly when `immediate` is true; on later renders it
compares against the cached snapshot with `snapEq`, and on a difference it
fires the callback with the new snapshot and replaces the cache, otherwise
it does nothing. Returns the new instance state and the snapshot passed to
`onTrigger` (`none` when the callback is not invoked). -/
def actionRender [DecidableEq α] (immediate : Bool) (w : Watch σ α)
    (st : ActionState α) (s : σ) : ActionState α × Option (Snapshot α) :=
  let snap := evalWatch w s
  match st.prev with
  | none => ({ prev := some snap }, if immediate then some snap else none)
  | some p =>
      if snapEq p snap then (st, none)
      else ({ prev := some snap }, some snap)

/-- Modelled from the spec: `actionRender` driven by an `ActionProps`
record, so that the `immediate` default participates in the model. -/
def actionRenderP [DecidableEq α] (p : ActionProps σ α)
    (st : ActionState α) (s : σ) : ActionState α × Option (Snapshot α) :=
  actionRender p.immediate p.watch st s

/-- Modelled from the spec: the UI fragment rendered by an `Action`
instance — "Renders nothing (no UI output)": the component returns null,
here `none` over an arbitrary node type `ν`. -/
def actionUI (ν : Type) [DecidableEq α] (_p : ActionProps σ α)
    (_st : ActionState α) (_s : σ) : Option ν :=
  none

/-- Modelled from the spec: the fragment a parent renders is the
concatenation of the fragments of its children; a child that renders
`none` contributes nothing. -/
def childFragments (ν : Type) (cs : List (Option ν)) : List ν :=
  cs.filterMap id

/-- Modelled from the spec: a watch descriptor whose accessors are
instrumented — each accessor returns its value together with the list of
call events it emits, so that "evaluated once per render cycle" is
observable in the model. -/
inductive WatchT (σ : Type) (α : Type) where
  | single : (σ → α × List Nat) → WatchT σ α
  | multi : List (σ → α × List Nat) → WatchT σ α

/-- Modelled from the spec: evaluating an instrumented watch descriptor —
each accessor is applied to the ambient state, the values form the
snapshot in accessor order, and the emitted call events are concatenated
in accessor order. -/
def evalWatchT (w : WatchT σ α) (s : σ) : Snapshot α × List Nat :=
  match w with
  | .single f => ((Snapshot.scalar (f s).1), (f s).2)
  | .multi fs =>
      let rs := fs.map (fun f => f s)
      (Snapshot.tuple (rs.map Prod.fst), (rs.map Prod.snd).flatten)

/-- Modelled from the spec: a step of the component mount/unmount and
mutation lifecycle acting on a signal's subscriber set — a component
registers a subscriber callback on mount, a mutation (setter call)
notifies every current subscriber, and unmount deregisters all callbacks
of the unmounting component. -/
inductive SubOp where
  | sub : Nat → Nat → SubOp
  | unmount : Nat → SubOp
  | mutate : SubOp

/-- Modelled from the spec: applying one lifecycle step to a signal state;
returns the new state and the subscriber callbacks invoked by the step.
Unmount is "this system's only resource-release point (subscriber
deregistration on unmount)": it removes every callback owned by the
unmounting component. -/
def applyOp (st : SignalState α) : SubOp → SignalState α × List (Nat × Nat)
  | .sub c k => ({ st with subscribers := (c, k) :: st.subscribers }, [])
  | .unmount c =>
      ({ st with subscribers := st.subscribers.filter (fun p => !(p.1 == c)) }, [])
  | .mutate => setSignal st (.upd id)

/-- Modelled from the spec: running a sequence of lifecycle steps from a
signal state, collecting every subscriber callback invocation. -/
def runOps (st : SignalState α) : List SubOp → SignalState α × List (Nat × Nat)
  | [] => (st, [])
  | op :: ops =>
      let r := applyOp st op
      let rest := runOps r.1 ops
      (rest.1, r.2 ++ rest.2)

/-- `ops` contains no subscription registered on behalf of component `c`:
the component is not re-mounted during the run. -/
def opsAvoid (c : Nat) (ops : List SubOp) : Bool :=
  ops.all (fun op =>
    match op with
    | SubOp.sub c2 _ => !(c2 == c)
    | _ => true)

/-- `addLog` from the stories file (lines 76-78 and 155-157):
`setLog((prev) => [message, ...prev].slice(0, 5))` — prepend the message
and keep the first five entries. -/
def addLog (message : String) (prev : List String) : List String :=
  (message :: prev).take 5

/-- The click handler of `ImmediateActionExample` (stories lines 166-171):
`setCount(count() + 1); addLog(s)` where `s` interpolates the value read
back from `count()` after the set. Modelled over the explicit signal
states; returns the updated count and logs signals. -/
def clickHandler (countSt : SignalState Nat) (logsSt : SignalState (List String)) :
    SignalState Nat × SignalState (List String) :=
  let c1 := (setSignal countSt (.val (getSignal countSt + 1))).1
  let msg := "Button clicked: count set to " ++ toString (getSignal c1)
  let l1 := (setSignal logsSt (.upd (addLog msg))).1
  (c1, l1)

/-! Helper lemmas shared by the claim theorems. -/

theorem flatten_map_singleton (xs : List Nat) :
    (xs.map (fun i => [i])).flatten = xs := by
  induction xs with
  | nil => rfl
  | cons x xs ih => simp [ih]

theorem addLog_length_le (m : String) (l : List String) :
    (addLog m l).length ≤ 5 := by
  simp [addLog]

theorem foldl_addLog_le (msgs : List String) (init : List String)
    (h : init.length ≤ 5) :
    (msgs.foldl (fun acc x => addLog x acc) init).length ≤ 5 := by
  induction msgs generalizing init with
  | nil => simpa using h
  | cons m ms ih => exact ih (addLog m init) (addLog_length_le m init)

theorem runOps_no_comp (c : Nat) (ops : List SubOp) (st : SignalState α)
    (hst : ∀ q ∈ st.subscribers, q.1 ≠ c)
    (h : opsAvoid c ops = true) :
    ((runOps st ops).2).filter (fun q => q.1 == c) = [] := by
  induction ops generalizing st with
  | nil => rfl
  | cons op ops ih =>
    have h2 := h
    unfold opsAvoid at h2
    rw [List.all_cons, Bool.and_eq_true] at h2
    have hops : opsAvoid c ops = true := h2.2
    have hgoal : ((runOps st (op :: ops)).2)
        = (applyOp st op).2 ++ (runOps (applyOp st op).1 ops).2 := rfl
    rw [hgoal, List.filter_append]
    have hsub : ∀ q ∈ (applyOp st op).1.subscribers, q.1 ≠ c := by
      cases op with
      | sub c2 k =>
        intro q hq
        rcases List.mem_cons.mp hq with h1 | hmem
        · have hc2 : c2 ≠ c := by simpa using h2.1
          simpa [h1] using hc2
        · exact hst q hmem
      | unmount c2 =>
        intro q hq
        exact hst q (List.mem_of_mem_filter hq)
      | mutate => exact hst
    have hinv : (applyOp st op).2.filter (fun q => q.1 == c) = [] := by
      cases op with
      | sub c2 k => rfl
      | unmount c2 => rfl
      | mutate =>
        rw [List.filter_eq_nil_iff]
        intro q hq
        simpa using hst q hq
    rw [hinv, List.nil_append]
    exact ih _ hsub hops

/-! Claim theorems. -/

/-- Claim C4: `createSignal(v)` yields a getter returning the current stored
value (initially `v`) and a setter accepting either a new value directly or
an updater applied to the old stored value. -/
theorem createSignal_getter_setter (v : α) (st : SignalState α) (w : α)
    (f : α → α) :
    getSignal (createSignal v) = v ∧
    getSignal (setSignal st (SetterArg.val w)).1 = w ∧
    getSignal (setSignal st (SetterArg.upd f)).1 = f (getSignal st) :=
  ⟨rfl, rfl, rfl⟩

/-- Claim C5: every setter call notifies the whole subscriber set of the
signal, for any argument — in particular regardless of whether the new
value equals the old one; no equality check suppresses notification. -/
theorem setter_notifies_all (st : SignalState α) (arg : SetterArg α) :
    (setSignal st arg).2 = st.subscribers :=
  rfl

/-- Claim C1: on a render after the first, when the new snapshot differs
from the cached one under shallow per-element equality, `onTrigger` is
invoked with the new snapshot and the cache is replaced by it; the
snapshot is a scalar for a single accessor and an ordered tuple for an
accessor array. -/
theorem action_fires_on_change [DecidableEq α] (imm : Bool) (w : Watch σ α)
    (p : Snapshot α) (s : σ)
    (h : snapEq p (evalWatch w s) = false) :
    actionRender imm w ⟨some p⟩ s
      = (⟨some (evalWatch w s)⟩, some (evalWatch w s)) ∧
    (∀ f : σ → α, evalWatch (Watch.single f) s = Snapshot.scalar (f s)) ∧
    (∀ fs : List (σ → α),
      evalWatch (Watch.multi fs) s = Snapshot.tuple (fs.map (fun f => f s))) := by
  refine ⟨?_, fun f => rfl, fun fs => rfl⟩
  simp [actionRender, h]

/-- Witness for C1 at a concrete input: cached scalar 0, new scalar 1. -/
theorem action_fires_on_change_witness :
    snapEq (Snapshot.scalar 0)
        (evalWatch (Watch.single (fun _ : Unit => (1 : Nat))) ()) = false ∧
    actionRender false (Watch.single (fun _ : Unit => (1 : Nat)))
        ⟨some (Snapshot.scalar 0)⟩ ()
      = (⟨some (Snapshot.scalar 1)⟩, some (Snapshot.scalar 1)) :=
  ⟨by decide,
   (action_fires_on_change false (Watch.single (fun _ : Unit => (1 : Nat)))
      (Snapshot.scalar 0) () (by decide)).1⟩

/-- Claim C2: on first mount the callback fires with the initial snapshot
exactly when `immediate` is true, the initial snapshot is cached, and the
`immediate` prop defaults to `false` when omitted. -/
theorem action_first_mount_immediate [DecidableEq α] (p : ActionProps σ α)
    (s : σ) :
    (actionRenderP p ⟨none⟩ s).2
      = (if p.immediate then some (evalWatch p.watch s) else none) ∧
    (actionRenderP p ⟨none⟩ s).1.prev = some (evalWatch p.watch s) ∧
    (∀ w : Watch σ α, ({ watch := w } : ActionProps σ α).immediate = false) :=
  ⟨rfl, rfl, fun _ => rfl⟩

/-- Claim C3: on a render after the first, when the new snapshot is
shallow-equal per element to the cached one, `onTrigger` is not invoked
and the cache is unchanged. -/
theorem action_noop_on_equal [DecidableEq α] (imm : Bool) (w : Watch σ α)
    (p : Snapshot α) (s : σ) (h : snapEq p (evalWatch w s) = true) :
    actionRender imm w ⟨some p⟩ s = (⟨some p⟩, none) := by
  simp [actionRender, h]

/-- Witness for C3 at a concrete input: cached scalar 1, new scalar 1. -/
theorem action_noop_on_equal_witness :
    snapEq (Snapshot.scalar 1)
        (evalWatch (Watch.single (fun _ : Unit => (1 : Nat))) ()) = true ∧
    actionRender true (Watch.single (fun _ : Unit => (1 : Nat)))
        ⟨some (Snapshot.scalar 1)⟩ ()
      = (⟨some (Snapshot.scalar 1)⟩, none) :=
  ⟨by decide,
   action_noop_on_equal true (Watch.single (fun _ : Unit => (1 : Nat)))
     (Snapshot.scalar 1) () (by decide)⟩

/-- Claim C6: with instrumented accessors that each emit their own index on
every call, one render evaluates each accessor exactly once (the call
trace of an n-accessor array is exactly [0, ..., n-1], in order) and the
tuple lists the values in accessor order; a single accessor is likewise
called exactly once. -/
theorem watch_accessors_once_in_order (n : Nat) (g : Nat → σ → α) (s : σ)
    (f : σ → α) :
    evalWatchT
        (WatchT.multi ((List.range n).map (fun i => fun st => (g i st, [i])))) s
      = (Snapshot.tuple ((List.range n).map (fun i => g i s)), List.range n) ∧
    evalWatchT (WatchT.single (fun st => (f st, [0]))) s
      = (Snapshot.scalar (f s), [0]) := by
  refine ⟨?_, rfl⟩
  simp only [evalWatchT, List.map_map]
  show (Snapshot.tuple (List.map (fun i => g i s) (List.range n)),
        (List.map (fun i => ([i] : List Nat)) (List.range n)).flatten)
      = (Snapshot.tuple ((List.range n).map (fun i => g i s)), List.range n)
  rw [flatten_map_singleton]

/-- Claim C7: an `Action` instance renders nothing (`null`), so inserting it
among a parent's children leaves the parent's rendered fragment
unchanged. -/
theorem action_renders_nothing (ν : Type) [DecidableEq α]
    (p : ActionProps σ α) (st : ActionState α) (s : σ)
    (before after : List (Option ν)) :
    actionUI ν p st s = none ∧
    childFragments ν (before ++ [actionUI ν p st s] ++ after)
      = childFragments ν (before ++ after) := by
  refine ⟨rfl, ?_⟩
  simp [childFragments, actionUI]

/-- Claim C8: unmounting component `c` removes every subscriber callback it
registered, and in any subsequent run that does not re-mount `c`, no
mutation ever invokes a callback of `c`. -/
theorem unmount_deregisters_subscribers (st : SignalState α) (c : Nat)
    (ops : List SubOp) (h : opsAvoid c ops = true) :
    (∀ q ∈ (applyOp st (SubOp.unmount c)).1.subscribers, q.1 ≠ c) ∧
    ((runOps (applyOp st (SubOp.unmount c)).1 ops).2).filter
        (fun q => q.1 == c) = [] := by
  have hst : ∀ q ∈ (applyOp st (SubOp.unmount c)).1.subscribers, q.1 ≠ c := by
    intro q hq
    have := List.of_mem_filter hq
    simpa using this
  exact ⟨hst, runOps_no_comp c ops _ hst h⟩

/-- Witness for C8 at a concrete input: a signal with subscribers of
components 0 and 2; unmount component 0, then mutate. -/
theorem unmount_deregisters_subscribers_witness :
    opsAvoid 0 [SubOp.mutate] = true ∧
    ((runOps (applyOp
        { value := (0 : Nat), subscribers := [(0, 1), (2, 3)] }
        (SubOp.unmount 0)).1 [SubOp.mutate]).2).filter
        (fun q => q.1 == 0) = [] :=
  ⟨by decide,
   (unmount_deregisters_subscribers
      { value := (0 : Nat), subscribers := [(0, 1), (2, 3)] }
      0 [SubOp.mutate] (by decide)).2⟩

/-- Claim C9: `addLog` prepends the message to the truncated previous
entries, its result has at most 5 entries, and repeatedly adding log
messages from a bounded start keeps the log at length at most 5. -/
theorem addLog_bounded_newest_first (m : String) (prev : List String)
    (init : List String) (msgs : List String) (h : init.length ≤ 5) :
    addLog m prev = m :: prev.take 4 ∧
    (addLog m prev).length ≤ 5 ∧
    (msgs.foldl (fun acc x => addLog x acc) init).length ≤ 5 := by
  refine ⟨rfl, addLog_length_le m prev, foldl_addLog_le msgs init h⟩

/-- Witness for C9 at a concrete input: a six-entry previous log. -/
theorem addLog_bounded_newest_first_witness :
    (([] : List String)).length ≤ 5 ∧
    (addLog ("a") (["b", "c", "d", "e", "f", "g"])
        = ("a") :: (["b", "c", "d", "e", "f", "g"]).take 4 ∧
      (addLog ("a") (["b", "c", "d", "e", "f", "g"])).length ≤ 5 ∧
      ((["x", "y"]).foldl (fun acc x => addLog x acc)
          ([] : List String)).length ≤ 5) :=
  ⟨by decide,
   addLog_bounded_newest_first ("a") (["b", "c", "d", "e", "f", "g"])
     ([] : List String) (["x", "y"]) (by decide)⟩

/-- Claim C10: a setter call takes effect synchronously: the getter read in
the same handler returns the value just set; hence the click handler of
the immediate-action story logs the incremented count, not the stale
one. -/
theorem setter_synchronous (st : SignalState α) (v : α)
    (cSt : SignalState Nat) (lSt : SignalState (List String)) :
    getSignal (setSignal st (SetterArg.val v)).1 = v ∧
    getSignal (clickHandler cSt lSt).1 = getSignal cSt + 1 ∧
    (getSignal (clickHandler cSt lSt).2).head?
      = some ("Button clicked: count set to " ++ toString (getSignal cSt + 1)) := by
  refine ⟨rfl, rfl, ?_⟩
  simp [clickHandler, getSignal, setSignal, applySetter, addLog]

end Reflex
